import Mathlib

/-!
Verification development for the e-book assistant front end.

The subsystems with real invariants are modelled here as executable
Lean functions, translated from the TypeScript sources:

* the summary cache (`src/lib/cache.ts`, class `SummaryCacheManager`),
* the status poller (`pollDocumentStatus` / `getBackoffDelay` /
  `handleCancel` in `src/components/PdfUploader.tsx`, with the same
  poller duplicated in `src/pages/doc/[docId].tsx`),
* the summarize orchestrator (`useSummarize` in `src/hooks/use-api.ts`).

JavaScript idioms are modelled explicitly: optional string parameters are
`Option String`, and the truthiness test `if (x)` on such a value is
`jsTruthyStr` (false for `undefined` and for the empty string); the
numeric default idiom `n || d` is modelled on optional numeric arguments
(`0` counts as absent).  `Date.now()` is passed in as an explicit `now`
argument.  A JavaScript object used as a string-keyed map is modelled as
an association list with at most one binding per key: assignment removes
the old binding for the key and prepends the new one.
-/

namespace EBookFE

/-- Truthiness of a `string | undefined` value: `undefined` and `""` are falsy. -/
def jsTruthyStr : Option String → Bool
  | none => false
  | some s => !(s == "")

/-- JS `x || dflt` on an optional string argument (used for `data.scope || 'full'`). -/
def jsOrStr (x : Option String) (dflt : String) : String :=
  match x with
  | some s => if s == "" then dflt else s
  | none => dflt

/-- JS `x || dflt` on an optional number argument (`0` and `undefined` are falsy). -/
def jsOrNat (x : Option Nat) (dflt : Nat) : Nat :=
  match x with
  | some n => if n == 0 then dflt else n
  | none => dflt

/-- `CachedSummary` from `src/lib/cache.ts`: one cached summary entry. -/
structure CachedSummary where
  summary : String
  timestamp : Nat
  docId : String
  scope : String
  expiresAt : Nat
  userId : Option String
  chunkCount : Nat
  deriving Repr, DecidableEq

/-- The persisted store (`SummaryCache` in `src/lib/cache.ts`): a JS object
keyed by cache key, modelled as an association list with unique keys. -/
abbrev SummaryCache := List (String × CachedSummary)

/-- Lookup a key in the store (JS property read `cache[cacheKey]`). -/
def lookupEntry (c : SummaryCache) (k : String) : Option CachedSummary :=
  (c.find? (fun p => p.1 == k)).map Prod.snd

/-- Deletion of a binding (JS `delete cache[cacheKey]`). -/
def deleteEntry (c : SummaryCache) (k : String) : SummaryCache :=
  c.filter (fun p => !(p.1 == k))

/-- Assignment `cache[cacheKey] = v`: a JS object holds one binding per key. -/
def setEntry (c : SummaryCache) (k : String) (v : CachedSummary) : SummaryCache :=
  (k, v) :: deleteEntry c k

/-- `DEFAULT_TTL` from `src/lib/cache.ts` (24 hours in milliseconds). -/
def DEFAULT_TTL : Nat := 24 * 60 * 60 * 1000

/-- `generateCacheKey` from `src/lib/cache.ts`: the key is the template
`docId ++ "_" ++ scope`, extended with `"_" ++ userId` when `userId` is truthy
(`const userIdPart = userId ? ... : ''`). -/
def generateCacheKey (docId scope : String) (userId : Option String) : String :=
  let userIdPart := if jsTruthyStr userId then "_" ++ userId.getD "" else ""
  docId ++ "_" ++ scope ++ userIdPart

/-- `isExpired` from `src/lib/cache.ts`: `Date.now() > cachedItem.expiresAt`
(strict comparison). -/
def isExpired (now : Nat) (cachedItem : CachedSummary) : Bool :=
  cachedItem.expiresAt < now

/-- `cleanExpiredEntries` from `src/lib/cache.ts`: delete every expired entry. -/
def cleanExpiredEntries (now : Nat) (c : SummaryCache) : SummaryCache :=
  c.filter (fun p => !(isExpired now p.2))

/-- `removeSummary` from `src/lib/cache.ts`: delete the entry for the key
when present. -/
def removeSummary (c : SummaryCache) (docId scope : String)
    (userId : Option String) : SummaryCache :=
  let cacheKey := generateCacheKey docId scope userId
  match lookupEntry c cacheKey with
  | some _ => deleteEntry c cacheKey
  | none => c

/-- `getSummary` from `src/lib/cache.ts`.  Returns the result together with the
persisted store after the call (the call mutates the store by sweeping expired
entries and by removing a chunk-count-stale entry).  The checks run in source
order: sweep, lookup, expiry, owner (only when `userId` is truthy), chunk
count (only when `currentChunkCount` is provided). -/
def getSummary (c : SummaryCache) (now : Nat) (docId : String)
    (scope : String) (userId : Option String) (currentChunkCount : Option Nat) :
    Option String × SummaryCache :=
  let c1 := cleanExpiredEntries now c
  let cacheKey := generateCacheKey docId scope userId
  match lookupEntry c1 cacheKey with
  | none => (none, c1)
  | some cachedItem =>
    if isExpired now cachedItem then (none, c1)
    else if jsTruthyStr userId && !(cachedItem.userId == userId) then (none, c1)
    else
      match currentChunkCount with
      | some ccnt =>
        if cachedItem.chunkCount != ccnt then
          (none, removeSummary c1 docId scope userId)
        else (some cachedItem.summary, c1)
      | none => (some cachedItem.summary, c1)

/-- `setSummary` from `src/lib/cache.ts`:
`const expirationTime = ttl || this.DEFAULT_TTL` and
`chunkCount: chunkCount || 0`. -/
def setSummary (c : SummaryCache) (now : Nat) (docId : String) (summary : String)
    (scope : String) (userId : Option String) (ttl : Option Nat)
    (chunkCount : Option Nat) : SummaryCache :=
  let cacheKey := generateCacheKey docId scope userId
  let expirationTime := jsOrNat ttl DEFAULT_TTL
  setEntry c cacheKey
    { summary := summary
      timestamp := now
      docId := docId
      scope := scope
      expiresAt := now + expirationTime
      userId := userId
      chunkCount := jsOrNat chunkCount 0 }

/-- Result record of `getCacheStats` (the `cacheSize` display string, a
`localStorage` byte count, is outside the model). -/
structure CacheStats where
  totalEntries : Nat
  expiredEntries : Nat
  userEntries : Nat
  validEntries : Nat
  deriving Repr, DecidableEq

/-- `getCacheStats` from `src/lib/cache.ts`: counts over `Object.values(cache)`,
filtered by owner when `userId` is truthy. -/
def getCacheStats (c : SummaryCache) (now : Nat) (userId : Option String) :
    CacheStats :=
  let entries := c.map Prod.snd
  let entries1 := if jsTruthyStr userId
    then entries.filter (fun e => e.userId == userId)
    else entries
  { totalEntries := entries.length
    userEntries := entries1.length
    expiredEntries := (entries1.filter (fun e => isExpired now e)).length
    validEntries := (entries1.filter (fun e => !(isExpired now e))).length }

example :
    (getSummary (setSummary [] 0 "doc42" "Executive summary text" "full"
        (some "u1") (some 1000) (some 5)) 10 "doc42" "full" (some "u1")
        (some 5)).1 = some "Executive summary text" := by decide

example :
    (getSummary (setSummary [] 0 "doc42" "Executive summary text" "full"
        (some "u1") (some 1000) (some 5)) 10 "doc42" "full" (some "u1")
        (some 6)).1 = none := by decide

example :
    (getSummary (setSummary [] 0 "doc42" "Executive summary text" "full"
        (some "u1") (some 1000) (some 5)) 10 "doc42" "full" (some "u1")
        (some 6)).2 = [] := by decide

/-! ## Status poller

Model of `pollDocumentStatus`, `getBackoffDelay` and `handleCancel` from
`src/components/PdfUploader.tsx` (the poller in `src/pages/doc/[docId].tsx`
is the same algorithm without the component-status field).  The async
recursion is modelled as an event handler: `pollDocumentStatusStep` is the
body of `pollDocumentStatus` from the point where the awaited GET request
for the document has resolved (successfully or with an error), acting on
the component state and emitting the observable side effects (toasts and
the `onProcessed` callback).  A scheduled `setTimeout` is recorded in the
`timer` field; an outstanding GET request is recorded in `inFlight`. -/

/-- Document status values from the `Document` interface in
`src/components/PdfUploader.tsx`. -/
inductive DocStatus
  | uploading
  | processing
  | processed
  | error
  deriving Repr, DecidableEq

/-- The `Document` payload returned by `GET /api/documents/:docId`. -/
structure Document where
  id : String
  doc_id : String
  title : String
  filename : String
  chunk_count : Nat
  status : DocStatus
  created_at : String
  deriving Repr, DecidableEq

/-- The component `status` state of `PdfUploader`. -/
inductive UiStatus
  | idle
  | uploading
  | processing
  | processed
  | error
  deriving Repr, DecidableEq

/-- Observable side effects of one poll step. -/
inductive PollEvent
  | processedToast
  | onProcessed (d : Document)
  | processingFailedToast
  | pollFailedToast
  deriving Repr, DecidableEq

/-- The poller-relevant component state of `PdfUploader`:
`status`, `document`, `pollAttempt` are React state; `timer` models
`pollTimeoutRef` as the pending `setTimeout`, if any, holding the delay and
the attempt argument of the scheduled `pollDocumentStatus` call; `inFlight`
holds the attempt index of an outstanding status GET request, if any (the
request carries no abort signal). -/
structure PollerState where
  status : UiStatus
  document : Option Document
  pollAttempt : Nat
  timer : Option (Nat × Nat)
  inFlight : Option Nat
  deriving Repr, DecidableEq

/-- `getBackoffDelay` from `src/components/PdfUploader.tsx` and
`src/pages/doc/[docId].tsx`:
`delays[Math.min(attempt, delays.length - 1)]` over
`[1000, 2000, 4000, 8000, 10000]`. -/
def getBackoffDelay (attempt : Nat) : Nat :=
  let delays : List Nat := [1000, 2000, 4000, 8000, 10000]
  delays.getD (min attempt (delays.length - 1)) 0

/-- Body of `pollDocumentStatus` (src/components/PdfUploader.tsx, lines
179-226) after the awaited GET resolved: `Except.ok doc` is a resolved
response, `Except.error ()` is any thrown error (network failure, non-2xx).
On success: `setDocument(doc)`; `Ready` when
`doc.status === 'processed' || doc.chunk_count > 0`; terminal error when
`doc.status === 'error'`; otherwise schedule the next probe after
`getBackoffDelay(attempt)` with `attempt + 1`.  On a thrown error: retry the
same way while `attempt < 10`, otherwise set the error status.  No branch
consults any cancellation flag. -/
def pollDocumentStatusStep (s : PollerState) (attempt : Nat)
    (result : Except Unit Document) : PollerState × List PollEvent :=
  match result with
  | .ok doc =>
    let s1 := { s with document := some doc, inFlight := none }
    if doc.status = .processed ∨ doc.chunk_count > 0 then
      ({ s1 with status := .processed },
        [.processedToast, .onProcessed doc])
    else if doc.status = .error then
      ({ s1 with status := .error }, [.processingFailedToast])
    else
      ({ s1 with
          pollAttempt := attempt + 1
          timer := some (getBackoffDelay attempt, attempt + 1) }, [])
  | .error _ =>
    let s1 := { s with inFlight := none }
    if attempt < 10 then
      ({ s1 with
          pollAttempt := attempt + 1
          timer := some (getBackoffDelay attempt, attempt + 1) }, [])
    else
      ({ s1 with status := .error }, [.pollFailedToast])

/-- `handleCancel` from `src/components/PdfUploader.tsx` (lines 285-297):
aborts the upload controller, clears the pending poll timeout
(`clearTimeout(pollTimeoutRef.current)`), and resets the component state.
The status GET issued by `pollDocumentStatus` carries no abort signal, so an
outstanding request (`inFlight`) is left untouched. -/
def handleCancel (s : PollerState) : PollerState :=
  { s with timer := none, status := .idle, document := none, pollAttempt := 0 }

/-- Component state right after `handleUpload` succeeded and
`pollDocumentStatus(doc_id, 0)` was invoked: processing, attempt 0, first
probe in flight. -/
def initialPollState : PollerState :=
  { status := .processing
    document := none
    pollAttempt := 0
    timer := none
    inFlight := some 0 }

/-- Iterated poll run: feed the poller one probe result per scheduled probe.
`runPoll s attempt results` consumes results as long as each step schedules a
further probe; it returns the final state, the total backoff delay scheduled
during the run (the simulated wall-clock time spent waiting between probes),
and the number of status calls performed. -/
def runPoll : PollerState → Nat → List (Except Unit Document) →
    PollerState × Nat × Nat
  | s, _, [] => (s, 0, 0)
  | s, attempt, r :: rs =>
    let s0 := { s with inFlight := some attempt, timer := none }
    let step := pollDocumentStatusStep s0 attempt r
    match step.1.timer with
    | some d => let rest := runPoll step.1 d.2 rs
                (rest.1, d.1 + rest.2.1, rest.2.2 + 1)
    | none => (step.1, 0, 1)

/-- A document answer that is still pending: processing, no chunks yet. -/
def pendingDoc : Document :=
  { id := "1", doc_id := "doc7", title := "t", filename := "f.pdf"
    chunk_count := 0, status := .processing, created_at := "" }

/-- A document answer signalling completion. -/
def readyDoc : Document :=
  { id := "1", doc_id := "doc7", title := "t", filename := "f.pdf"
    chunk_count := 3, status := .processed, created_at := "" }

example : getBackoffDelay 0 = 1000 := by decide
example : getBackoffDelay 7 = 10000 := by decide

example :
    (runPoll initialPollState 0
      (List.replicate 4 (Except.ok pendingDoc) ++ [Except.ok readyDoc])).2 =
      (15000, 5) := by decide

/-! ## Summarize orchestrator

Model of the `mutationFn` of `useSummarize` (`src/hooks/use-api.ts`, lines
99-158).  The remote calls are parameters: `currentChunkCount` is the
`chunk_count` of the document fetched at the start of the call, and
`genSummary` is the summary the backend (`ragAPI.summarize`) would return
if consulted.  The JS test `if (cachedSummary)` is string truthiness:
a cached empty string does not count as a hit. -/

/-- Result of one `useSummarize` mutation call, plus whether the remote
generator was consulted and the persisted cache afterwards. -/
structure SummarizeOutcome where
  summary : String
  fromCache : Bool
  chunkCount : Nat
  generatorCalled : Bool
  store : SummaryCache
  deriving Repr, DecidableEq

/-- The `mutationFn` of `useSummarize`: fetch the document (its
`chunk_count` is `currentChunkCount`), consult
`summaryCache.getSummary(docId, data.scope || 'full', userId, chunkCount)`;
on a truthy cached string return it from cache, otherwise call the backend
and store its summary with the current chunk count and the default TTL. -/
def useSummarizeRun (store : SummaryCache) (now : Nat) (userId : Option String)
    (docId : String) (dataScope : Option String) (currentChunkCount : Nat)
    (genSummary : String) : SummarizeOutcome :=
  let scope := jsOrStr dataScope "full"
  let got := getSummary store now docId scope userId (some currentChunkCount)
  let generated : SummarizeOutcome :=
    { summary := genSummary
      fromCache := false
      chunkCount := currentChunkCount
      generatorCalled := true
      store := setSummary got.2 now docId genSummary scope userId none
        (some currentChunkCount) }
  match got.1 with
  | some cachedSummary =>
    if cachedSummary == "" then generated
    else
      { summary := cachedSummary
        fromCache := true
        chunkCount := currentChunkCount
        generatorCalled := false
        store := got.2 }
  | none => generated

example :
    (useSummarizeRun [] 0 (some "u1") "doc9" none 3 "S").fromCache = false := by
  decide

example :
    (useSummarizeRun (useSummarizeRun [] 0 (some "u1") "doc9" none 3 "S").store
      0 (some "u1") "doc9" none 3 "T").summary = "S" := by decide

/-! ## Helper lemmas about the store -/

theorem jsOrNat_some_self (n : Nat) : jsOrNat (some n) 0 = n := by
  unfold jsOrNat
  split <;> simp_all

theorem lookupEntry_cons (k1 : String) (v : CachedSummary) (c : SummaryCache)
    (k : String) :
    lookupEntry ((k1, v) :: c) k =
      if (k1 == k) = true then some v else lookupEntry c k := by
  unfold lookupEntry
  rw [List.find?_cons]
  cases h : (k1 == k) <;> simp [h]

theorem lookupEntry_eq_none_of_keys_ne (c : SummaryCache) (k : String)
    (h : ∀ p ∈ c, (p.1 == k) = false) : lookupEntry c k = none := by
  unfold lookupEntry
  rw [List.find?_eq_none.mpr]
  · rfl
  · intro p hp
    simp [h p hp]

theorem deleteEntry_keys_ne (c : SummaryCache) (k : String) :
    ∀ p ∈ deleteEntry c k, (p.1 == k) = false := by
  intro p hp
  have := List.of_mem_filter hp
  simpa using this

theorem deleteEntry_eq_self_of_keys_ne (c : SummaryCache) (k : String)
    (h : ∀ p ∈ c, (p.1 == k) = false) : deleteEntry c k = c := by
  unfold deleteEntry
  apply List.filter_eq_self.mpr
  intro p hp
  simp [h p hp]

theorem filter_keys_ne (c : SummaryCache) (k : String)
    (q : String × CachedSummary → Bool) (h : ∀ p ∈ c, (p.1 == k) = false) :
    ∀ p ∈ c.filter q, (p.1 == k) = false := by
  intro p hp
  exact h p (List.mem_of_mem_filter hp)

theorem lookupEntry_setEntry_self (c : SummaryCache) (k : String)
    (v : CachedSummary) : lookupEntry (setEntry c k v) k = some v := by
  unfold setEntry
  rw [lookupEntry_cons]
  simp

theorem generateCacheKey_owner_ne (docId scope a b : String) (h : a ≠ b) :
    (generateCacheKey docId scope (some a) ==
      generateCacheKey docId scope (some b)) = false := by
  apply beq_eq_false_iff_ne.mpr
  intro heq
  have hlen1 : ("_" : String).length = 1 := rfl
  by_cases ha : a = "" <;> by_cases hb : b = ""
  · exact h (ha.trans hb.symm)
  · simp only [generateCacheKey, jsTruthyStr, ha, hb] at heq
    simp only [beq_self_eq_true, Bool.not_true, if_neg (by simp : ¬false = true),
      String.append_empty] at heq
    rw [if_pos (by simp [hb])] at heq
    have hd := congrArg String.length heq
    simp [String.length_append, hlen1] at hd
  · simp only [generateCacheKey, jsTruthyStr, ha, hb] at heq
    simp only [beq_self_eq_true, Bool.not_true, if_neg (by simp : ¬false = true),
      String.append_empty] at heq
    rw [if_pos (by simp [ha])] at heq
    have hd := congrArg String.length heq
    simp [String.length_append, hlen1] at hd
  · simp only [generateCacheKey, jsTruthyStr] at heq
    rw [if_pos (by simp [ha]), if_pos (by simp [hb])] at heq
    simp only [Option.getD_some] at heq
    have hd := congrArg String.data heq
    simp [String.data_append] at hd
    exact h (String.ext hd)

theorem lookupEntry_filter_deleteEntry (c : SummaryCache)
    (q : String × CachedSummary → Bool) (ka kb : String)
    (hne : (ka == kb) = false) :
    lookupEntry ((deleteEntry c ka).filter q) kb =
      lookupEntry (c.filter q) kb := by
  induction c with
  | nil => rfl
  | cons p rest ih =>
    simp only [deleteEntry] at ih
    show lookupEntry
        (((p :: rest).filter (fun x => !(x.1 == ka))).filter q) kb = _
    rw [List.filter_cons, List.filter_cons]
    by_cases hk : (p.1 == ka) = true
    · have hpkb : (p.1 == kb) = false := by
        rw [show p.1 = ka from eq_of_beq hk]; exact hne
      rw [if_neg (by simp [hk])]
      rw [ih]
      by_cases hq : q p = true
      · rw [if_pos hq, lookupEntry_cons, if_neg (by simp [hpkb])]
      · rw [if_neg hq]
    · rw [if_pos (by simp at hk; simp [hk]), List.filter_cons]
      by_cases hq : q p = true
      · rw [if_pos hq, if_pos hq, lookupEntry_cons, lookupEntry_cons, ih]
      · rw [if_neg hq, if_neg hq, ih]

theorem lookupEntry_clean_setEntry_ne (c : SummaryCache) (now : Nat)
    (ka kb : String) (v : CachedSummary) (hne : (ka == kb) = false) :
    lookupEntry (cleanExpiredEntries now (setEntry c ka v)) kb =
      lookupEntry (cleanExpiredEntries now c) kb := by
  unfold cleanExpiredEntries setEntry
  rw [List.filter_cons]
  by_cases he : (!(isExpired now v)) = true
  · rw [if_pos he, lookupEntry_cons, if_neg (by simp [hne])]
    exact lookupEntry_filter_deleteEntry c _ ka kb hne
  · rw [if_neg he]
    exact lookupEntry_filter_deleteEntry c _ ka kb hne

/-- Proof helper: the verdict component of `getSummary` as a function of the
entry found under the requested key after the sweep. -/
def getSummaryVerdict (found : Option CachedSummary) (now : Nat)
    (userId : Option String) (currentChunkCount : Option Nat) : Option String :=
  match found with
  | none => none
  | some cachedItem =>
    if isExpired now cachedItem then none
    else if jsTruthyStr userId && !(cachedItem.userId == userId) then none
    else
      match currentChunkCount with
      | some ccnt =>
        if cachedItem.chunkCount != ccnt then none else some cachedItem.summary
      | none => some cachedItem.summary

theorem getSummary_fst_eq (c : SummaryCache) (now : Nat) (d s : String)
    (o : Option String) (g : Option Nat) :
    (getSummary c now d s o g).1 =
      getSummaryVerdict
        (lookupEntry (cleanExpiredEntries now c) (generateCacheKey d s o))
        now o g := by
  simp only [getSummary, getSummaryVerdict]
  cases lookupEntry (cleanExpiredEntries now c) (generateCacheKey d s o) with
  | none => rfl
  | some item =>
    by_cases h1 : isExpired now item = true
    · simp [h1]
    · by_cases h2 : (jsTruthyStr o && !(item.userId == o)) = true
      · simp [h1, h2]
      · cases g with
        | none => simp [h1, h2]
        | some n =>
          by_cases h3 : (item.chunkCount != n) = true
          · simp [h1, h2, h3]
          · simp [h1, h2, h3]

theorem getSummary_fst_congr (c c1 : SummaryCache) (now : Nat) (d s : String)
    (o : Option String) (g : Option Nat)
    (h : lookupEntry (cleanExpiredEntries now c) (generateCacheKey d s o) =
         lookupEntry (cleanExpiredEntries now c1) (generateCacheKey d s o)) :
    (getSummary c now d s o g).1 = (getSummary c1 now d s o g).1 := by
  rw [getSummary_fst_eq, getSummary_fst_eq, h]

/-! ## Claim theorems: the status poller -/

/-- A probe response whose document is not yet processed but already reports a
positive chunk count (status `processing`, `chunk_count = 1`). -/
def processingWithChunksDoc : Document :=
  { id := "1", doc_id := "doc7", title := "t", filename := "f.pdf"
    chunk_count := 1, status := .processing, created_at := "" }

/-- C7: the poller backoff delay equals
`[1000, 2000, 4000, 8000, 10000][min(attempt, 4)]` milliseconds: attempts
0..5 give exactly 1000, 2000, 4000, 8000, 10000, 10000 ms, every attempt
from index 4 on gives 10000 ms, and no attempt's delay exceeds 10000 ms. -/
theorem c7_backoff_delay_table :
    getBackoffDelay 0 = 1000 ∧ getBackoffDelay 1 = 2000 ∧
    getBackoffDelay 2 = 4000 ∧ getBackoffDelay 3 = 8000 ∧
    getBackoffDelay 4 = 10000 ∧ getBackoffDelay 5 = 10000 ∧
    (∀ n : Nat, getBackoffDelay n =
      [1000, 2000, 4000, 8000, 10000].getD (min n 4) 0) ∧
    (∀ n : Nat, getBackoffDelay (n + 4) = 10000) ∧
    (∀ n : Nat, getBackoffDelay n ≤ 10000) := by
  have h4 : ∀ n : Nat, getBackoffDelay (n + 4) = 10000 := by
    intro n
    show [1000, 2000, 4000, 8000, 10000].getD (min (n + 4) 4) 0 = 10000
    rw [show min (n + 4) 4 = 4 from by omega]
    rfl
  refine ⟨rfl, rfl, rfl, rfl, rfl, rfl, fun n => rfl, h4, ?_⟩
  intro n
  match n with
  | 0 => decide
  | 1 => decide
  | 2 => decide
  | 3 => decide
  | (m + 4) => exact (h4 m).le

/-- C1 counterexample: a probe result with `status = processing` and
`chunk_count = 1` (progress positive, state not ready) DOES produce the Ready
transition: the handler sets the component status to `processed` and fires the
success toast and the `onProcessed` callback, because the source condition is
`doc.status === 'processed' || doc.chunk_count > 0`. -/
theorem c1_ready_and_counterexample :
    processingWithChunksDoc.status ≠ DocStatus.processed ∧
    processingWithChunksDoc.chunk_count > 0 ∧
    (pollDocumentStatusStep initialPollState 0
        (Except.ok processingWithChunksDoc)).1.status = UiStatus.processed ∧
    (pollDocumentStatusStep initialPollState 0
        (Except.ok processingWithChunksDoc)).2 =
      [PollEvent.processedToast, PollEvent.onProcessed processingWithChunksDoc] := by
  refine ⟨by decide, by decide, by decide, by decide⟩

/-- C1 (amended): the poller transitions to Ready (success toast plus
`onProcessed` callback) exactly when the probe result has
`status = processed` OR `chunk_count > 0` (a disjunction, not a
conjunction), and in that case it schedules no new probe (the timer field is
left unchanged). -/
theorem c1_ready_condition_or :
    ∀ (s : PollerState) (attempt : Nat) (doc : Document),
      ((pollDocumentStatusStep s attempt (Except.ok doc)).2 =
          [PollEvent.processedToast, PollEvent.onProcessed doc] ↔
        (doc.status = DocStatus.processed ∨ doc.chunk_count > 0)) ∧
      ((doc.status = DocStatus.processed ∨ doc.chunk_count > 0) →
        (pollDocumentStatusStep s attempt (Except.ok doc)).1.status =
            UiStatus.processed ∧
          (pollDocumentStatusStep s attempt (Except.ok doc)).1.timer = s.timer) := by
  intro s attempt doc
  by_cases h : doc.status = DocStatus.processed ∨ doc.chunk_count > 0
  · constructor
    · simp [pollDocumentStatusStep, h]
    · intro _
      simp [pollDocumentStatusStep, h]
  · rcases not_or.mp h with ⟨hs, hc⟩
    constructor
    · by_cases he : doc.status = DocStatus.error
      · simp [pollDocumentStatusStep, hs, hc, he]
      · simp [pollDocumentStatusStep, hs, hc, he]
    · intro hh
      exact absurd hh h

/-- Witness for `c1_ready_condition_or` at the ready document. -/
theorem c1_ready_condition_or_witness :
    ((pollDocumentStatusStep initialPollState 0 (Except.ok readyDoc)).2 =
        [PollEvent.processedToast, PollEvent.onProcessed readyDoc] ↔
      (readyDoc.status = DocStatus.processed ∨ readyDoc.chunk_count > 0)) ∧
    ((pollDocumentStatusStep initialPollState 0 (Except.ok readyDoc)).1.status =
        UiStatus.processed ∧
      (pollDocumentStatusStep initialPollState 0 (Except.ok readyDoc)).1.timer =
        initialPollState.timer) :=
  ⟨(c1_ready_condition_or initialPollState 0 readyDoc).1,
    (c1_ready_condition_or initialPollState 0 readyDoc).2 (Or.inl rfl)⟩

/-- C2 counterexample: a run of 100 consecutive successful probes all
reporting a still-pending subject performs 100 status calls, accumulates
975000 ms of scheduled backoff waiting (exceeding the claimed 600000 ms
wall-clock budget, and far past 10 attempts), yet ends still in `processing`
with yet another probe scheduled — the poller never transitions to Failed. -/
theorem c2_no_wallclock_budget_counterexample :
    (runPoll initialPollState 0
        (List.replicate 100 (Except.ok pendingDoc))).2.2 = 100 ∧
    (runPoll initialPollState 0
        (List.replicate 100 (Except.ok pendingDoc))).2.1 = 975000 ∧
    600000 < 975000 ∧
    (runPoll initialPollState 0
        (List.replicate 100 (Except.ok pendingDoc))).1.status =
      UiStatus.processing ∧
    (runPoll initialPollState 0
        (List.replicate 100 (Except.ok pendingDoc))).1.timer =
      some (10000, 100) := by
  refine ⟨by decide, by decide, by decide, by decide, by decide⟩

/-- C2 (amended): the only stop condition forcing Failed is the
transient-error retry budget: a probe error at attempt index ≥ 10 sets the
error status and schedules nothing, while a successful probe reporting a
still-pending subject always schedules another probe after
`getBackoffDelay(attempt)` regardless of the attempt index — there is no
wall-clock budget in `pollDocumentStatus`. -/
theorem c2_stop_conditions :
    (∀ (s : PollerState) (attempt : Nat), 10 ≤ attempt →
      (pollDocumentStatusStep s attempt (Except.error ())).1.status =
          UiStatus.error ∧
        (pollDocumentStatusStep s attempt (Except.error ())).1.timer = s.timer) ∧
    (∀ (s : PollerState) (attempt : Nat) (doc : Document),
      doc.status ≠ DocStatus.processed → doc.chunk_count = 0 →
      doc.status ≠ DocStatus.error →
      (pollDocumentStatusStep s attempt (Except.ok doc)).1.timer =
          some (getBackoffDelay attempt, attempt + 1) ∧
        (pollDocumentStatusStep s attempt (Except.ok doc)).1.status = s.status) := by
  constructor
  · intro s attempt h
    have hlt : ¬ attempt < 10 := by omega
    simp [pollDocumentStatusStep, hlt]
  · intro s attempt doc h1 h2 h3
    have hor : ¬ (doc.status = DocStatus.processed ∨ doc.chunk_count > 0) := by
      simp [h1, h2]
    simp [pollDocumentStatusStep, hor, h3]

/-- Witness for `c2_stop_conditions`: error at attempt 10 fails; a pending
success at attempt 42 still schedules. -/
theorem c2_stop_conditions_witness :
    (10 ≤ 10 ∧
      (pollDocumentStatusStep initialPollState 10 (Except.error ())).1.status =
        UiStatus.error) ∧
    (pendingDoc.status ≠ DocStatus.processed ∧ pendingDoc.chunk_count = 0 ∧
      (pollDocumentStatusStep initialPollState 42
          (Except.ok pendingDoc)).1.timer = some (10000, 43)) :=
  ⟨⟨le_refl 10, (c2_stop_conditions.1 initialPollState 10 (le_refl 10)).1⟩,
    ⟨by decide, by decide,
      ((c2_stop_conditions.2 initialPollState 42 pendingDoc (by decide)
        (by decide) (by decide)).1).trans (by decide)⟩⟩

/-- C9: when every probe raises a transient error the poller performs
exactly 11 status calls (attempt indices 0 through 10), transitions to the
error status upon the call at attempt index 10 (after 75000 ms of scheduled
backoff), independently of any further trace; and after any prefix of at
most 10 error probes the poller has not failed (it made exactly that many
calls and is still in `processing`). -/
theorem c9_transient_error_budget :
    (∀ rest : List (Except Unit Document),
      runPoll initialPollState 0 (List.replicate 11 (Except.error ()) ++ rest) =
        ({ status := UiStatus.error, document := none, pollAttempt := 10,
            timer := none, inFlight := none }, 75000, 11)) ∧
    (∀ k : Nat, k ≤ 10 →
      (runPoll initialPollState 0
          (List.replicate k (Except.error ()))).1.status = UiStatus.processing ∧
      (runPoll initialPollState 0 (List.replicate k (Except.error ()))).2.2 = k) := by
  constructor
  · intro rest
    simp only [List.replicate, List.cons_append, List.nil_append]
    simp [runPoll, pollDocumentStatusStep, getBackoffDelay, initialPollState]
  · decide

/-- Witness for `c9_transient_error_budget` at the longest non-failing
prefix, 10 error probes. -/
theorem c9_transient_error_budget_witness :
    10 ≤ 10 ∧
    (runPoll initialPollState 0
        (List.replicate 10 (Except.error ()))).1.status = UiStatus.processing ∧
    (runPoll initialPollState 0 (List.replicate 10 (Except.error ()))).2.2 = 10 :=
  ⟨by decide, (c9_transient_error_budget.2 10 (by decide)).1,
    (c9_transient_error_budget.2 10 (by decide)).2⟩

/-- C4 counterexample: cancel invoked while a status request is in flight
(`initialPollState`), then the response `readyDoc` arrives: the handler runs
unconditionally, the component status transitions from `idle` to
`processed`, and the success toast and the `onProcessed` callback fire —
the post-cancellation response is not discarded. -/
theorem c4_cancel_inflight_counterexample :
    (handleCancel initialPollState).status = UiStatus.idle ∧
    (handleCancel initialPollState).timer = none ∧
    (handleCancel initialPollState).inFlight = some 0 ∧
    (pollDocumentStatusStep (handleCancel initialPollState) 0
        (Except.ok readyDoc)).1.status = UiStatus.processed ∧
    (pollDocumentStatusStep (handleCancel initialPollState) 0
        (Except.ok readyDoc)).2 =
      [PollEvent.processedToast, PollEvent.onProcessed readyDoc] := by
  refine ⟨rfl, rfl, rfl, by decide, by decide⟩

/-- C4 (amended): `handleCancel` clears the pending backoff timer (so no
timer-scheduled probe ever runs afterwards) and resets the state to idle,
but it does not invalidate an in-flight status request: the request stays
outstanding and its response is handled exactly as without the cancel,
emitting the same toasts and callbacks. -/
theorem c4_cancel_semantics :
    ∀ (s : PollerState) (attempt : Nat) (r : Except Unit Document),
      (handleCancel s).timer = none ∧
      (handleCancel s).status = UiStatus.idle ∧
      (handleCancel s).inFlight = s.inFlight ∧
      (pollDocumentStatusStep (handleCancel s) attempt r).2 =
        (pollDocumentStatusStep s attempt r).2 := by
  intro s attempt r
  refine ⟨rfl, rfl, rfl, ?_⟩
  cases r with
  | ok doc =>
    by_cases h : doc.status = DocStatus.processed ∨ doc.chunk_count > 0
    · simp [pollDocumentStatusStep, h]
    · rcases not_or.mp h with ⟨hs, hc⟩
      by_cases he : doc.status = DocStatus.error
      · simp [pollDocumentStatusStep, hs, hc, he]
      · simp [pollDocumentStatusStep, hs, hc, he]
  | error e =>
    by_cases h : attempt < 10
    · simp [pollDocumentStatusStep, h]
    · simp [pollDocumentStatusStep, h]

/-! ## Claim theorems: the cache and the summarize orchestrator -/

/-- Reading back the key just written with the same generation, before the
entry expires, yields the stored payload (and the swept store with the fresh
entry in front). -/
theorem getSummary_set_match (c : SummaryCache) (now now2 : Nat)
    (docId scope payload : String) (owner : Option String) (ttl : Option Nat)
    (g : Nat) (hfresh : ¬ (now + jsOrNat ttl DEFAULT_TTL < now2)) :
    getSummary (setSummary c now docId payload scope owner ttl (some g)) now2
        docId scope owner (some g) =
      (some payload,
        (generateCacheKey docId scope owner,
            { summary := payload, timestamp := now, docId := docId,
              scope := scope, expiresAt := now + jsOrNat ttl DEFAULT_TTL,
              userId := owner, chunkCount := jsOrNat (some g) 0 }) ::
          (deleteEntry c (generateCacheKey docId scope owner)).filter
            (fun p => !(isExpired now2 p.2))) := by
  simp only [setSummary, getSummary]
  unfold cleanExpiredEntries setEntry
  have hexp : isExpired now2
      { summary := payload, timestamp := now, docId := docId, scope := scope,
        expiresAt := now + jsOrNat ttl DEFAULT_TTL, userId := owner,
        chunkCount := jsOrNat (some g) 0 } = false := by
    simp [isExpired]
    omega
  rw [List.filter_cons]
  rw [if_pos (show (!(isExpired now2
      { summary := payload, timestamp := now, docId := docId, scope := scope,
        expiresAt := now + jsOrNat ttl DEFAULT_TTL, userId := owner,
        chunkCount := jsOrNat (some g) 0 })) = true by rw [hexp]; rfl)]
  rw [lookupEntry_cons, if_pos (beq_self_eq_true _)]
  have hexp2 : isExpired now2
      { summary := payload, timestamp := now, docId := docId, scope := scope,
        expiresAt := now + jsOrNat ttl DEFAULT_TTL, userId := owner,
        chunkCount := g } = false := by
    simp [isExpired]
    omega
  simp [hexp, hexp2, jsOrNat_some_self]

/-- Reading back the key just written with a different generation returns
`none` and leaves the store without any binding for that key. -/
theorem getSummary_set_mismatch (c : SummaryCache) (now now2 : Nat)
    (docId scope payload : String) (owner : Option String) (ttl : Option Nat)
    (g1 g2 : Nat) (hne : g1 ≠ g2) :
    getSummary (setSummary c now docId payload scope owner ttl (some g1)) now2
        docId scope owner (some g2) =
      (none, (deleteEntry c (generateCacheKey docId scope owner)).filter
          (fun p => !(isExpired now2 p.2))) := by
  have hRkeys : ∀ p ∈ (deleteEntry c (generateCacheKey docId scope owner)).filter
      (fun p => !(isExpired now2 p.2)),
      (p.1 == generateCacheKey docId scope owner) = false :=
    filter_keys_ne _ _ _ (deleteEntry_keys_ne c _)
  have hlookR := lookupEntry_eq_none_of_keys_ne _ _ hRkeys
  have hdelR := deleteEntry_eq_self_of_keys_ne _ _ hRkeys
  simp only [setSummary, getSummary]
  unfold cleanExpiredEntries setEntry
  rw [List.filter_cons]
  by_cases he : isExpired now2
      { summary := payload, timestamp := now, docId := docId, scope := scope,
        expiresAt := now + jsOrNat ttl DEFAULT_TTL, userId := owner,
        chunkCount := jsOrNat (some g1) 0 } = true
  · rw [if_neg (by simp [he])]
    rw [show (List.filter (fun p => !(isExpired now2 p.2))
        (deleteEntry c (generateCacheKey docId scope owner))) =
        (deleteEntry c (generateCacheKey docId scope owner)).filter
          (fun p => !(isExpired now2 p.2)) from rfl]
    rw [hlookR]
  · have he' : isExpired now2
        { summary := payload, timestamp := now, docId := docId, scope := scope,
          expiresAt := now + jsOrNat ttl DEFAULT_TTL, userId := owner,
          chunkCount := jsOrNat (some g1) 0 } = false := by
      simp at he
      simp [he]
    rw [if_pos (by simp [he'])]
    rw [lookupEntry_cons, if_pos (beq_self_eq_true _)]
    have hchunk : (jsOrNat (some g1) 0 != g2) = true := by
      rw [jsOrNat_some_self]
      exact bne_iff_ne.mpr hne
    have hrem : removeSummary
        ((generateCacheKey docId scope owner,
          { summary := payload, timestamp := now, docId := docId, scope := scope,
            expiresAt := now + jsOrNat ttl DEFAULT_TTL, userId := owner,
            chunkCount := jsOrNat (some g1) 0 }) ::
          (deleteEntry c (generateCacheKey docId scope owner)).filter
            (fun p => !(isExpired now2 p.2))) docId scope owner =
        (deleteEntry c (generateCacheKey docId scope owner)).filter
          (fun p => !(isExpired now2 p.2)) := by
      simp only [removeSummary]
      rw [lookupEntry_cons, if_pos (beq_self_eq_true _)]
      show deleteEntry _ _ = _
      unfold deleteEntry
      rw [List.filter_cons]
      rw [if_neg (by simp)]
      exact hdelR
    simp [he', hchunk, hrem]

/-- C10: `setSummary` treats a ttl argument of 0 as absent (the JS default
idiom `ttl || DEFAULT_TTL`): the call with `ttl = 0` produces exactly the
same store as the call with no ttl, and the stored entry expires at the
call time plus the default 24-hour TTL — no zero-lifetime entry can be
created through `setSummary`. -/
theorem c10_ttl_zero_default :
    ∀ (c : SummaryCache) (now : Nat) (docId payload scope : String)
      (owner : Option String) (cc : Option Nat),
      setSummary c now docId payload scope owner (some 0) cc =
        setSummary c now docId payload scope owner none cc ∧
      (lookupEntry (setSummary c now docId payload scope owner (some 0) cc)
          (generateCacheKey docId scope owner)).map CachedSummary.expiresAt =
        some (now + DEFAULT_TTL) := by
  intro c now docId payload scope owner cc
  refine ⟨rfl, ?_⟩
  simp only [setSummary]
  rw [lookupEntry_setEntry_self]
  rfl

/-- C8 counterexample: expiry is tested with a strict comparison
(`Date.now() > expiresAt`), so at the boundary instant `now = expiresAt`
the claim fails: an entry stored at time 0 with ttl 100 (so
`expiresAt = 100`) is still returned by `getSummary` at `now = 100` with
matching owner and matching generation, instead of `None`. -/
theorem c8_expiry_boundary_counterexample :
    (lookupEntry
        (setSummary [] 0 "d1" "text" "full" (some "u1") (some 100) (some 5))
        (generateCacheKey "d1" "full" (some "u1"))).map CachedSummary.expiresAt =
      some 100 ∧
    (getSummary (setSummary [] 0 "d1" "text" "full" (some "u1") (some 100)
        (some 5)) 100 "d1" "full" (some "u1") (some 5)).1 = some "text" := by
  refine ⟨by decide, by decide⟩

/-- C8 (amended): once `now > expiresAt` (strictly) for every entry stored
under the requested key, `get` returns `None` for that key — even when the
supplied generation matches the stored one and the owner matches. -/
theorem c8_expired_get_none :
    ∀ (c : SummaryCache) (now : Nat) (docId scope : String)
      (owner : Option String) (g : Option Nat),
      (∀ p ∈ c, p.1 = generateCacheKey docId scope owner →
        p.2.expiresAt < now) →
      (getSummary c now docId scope owner g).1 = none := by
  intro c now docId scope owner g h
  rw [getSummary_fst_eq]
  have hnone : lookupEntry (cleanExpiredEntries now c)
      (generateCacheKey docId scope owner) = none := by
    apply lookupEntry_eq_none_of_keys_ne
    intro p hp
    simp only [cleanExpiredEntries] at hp
    have hmem := List.mem_of_mem_filter hp
    have hfil := List.of_mem_filter hp
    cases hpk : (p.1 == generateCacheKey docId scope owner) with
    | false => rfl
    | true =>
      exfalso
      have hexp := h p hmem (eq_of_beq hpk)
      have hb : isExpired now p.2 = true := by
        simp [isExpired, hexp]
      simp [hb] at hfil
  rw [hnone]
  rfl

/-- Witness for `c8_expired_get_none`: one matching entry, expired one
millisecond before the read. -/
theorem c8_expired_get_none_witness :
    (∀ p ∈ setSummary [] 0 "d1" "x" "full" (some "u1") (some 5) (some 1),
      p.1 = generateCacheKey "d1" "full" (some "u1") → p.2.expiresAt < 6) ∧
    (getSummary (setSummary [] 0 "d1" "x" "full" (some "u1") (some 5) (some 1))
        6 "d1" "full" (some "u1") (some 1)).1 = none :=
  ⟨by decide,
    c8_expired_get_none
      (setSummary [] 0 "d1" "x" "full" (some "u1") (some 5) (some 1)) 6 "d1"
      "full" (some "u1") (some 1) (by decide)⟩

/-- C6: owner isolation: for distinct owner identifiers, a `setSummary`
under `ownerA` does not change the result of `getSummary` under `ownerB`
for the same document and scope — for every prior store, every time of
write and read, every payload, ttl and chunk count, and every generation
queried. -/
theorem c6_owner_isolation :
    ∀ (ownerA ownerB : String), ownerA ≠ ownerB →
    ∀ (docId scope payload : String) (ttl cc : Option Nat) (c : SummaryCache)
      (now now2 : Nat) (g : Option Nat),
      (getSummary (setSummary c now docId payload scope (some ownerA) ttl cc)
          now2 docId scope (some ownerB) g).1 =
        (getSummary c now2 docId scope (some ownerB) g).1 := by
  intro a b hab docId scope payload ttl cc c now now2 g
  apply getSummary_fst_congr
  simp only [setSummary]
  exact lookupEntry_clean_setEntry_ne c now2 _ _ _
    (generateCacheKey_owner_ne docId scope a b hab)

/-- Witness for `c6_owner_isolation` at owners u1 and u2. -/
theorem c6_owner_isolation_witness :
    "u1" ≠ "u2" ∧
    (getSummary (setSummary [] 0 "doc1" "text" "full" (some "u1") none none)
        0 "doc1" "full" (some "u2") none).1 =
      (getSummary ([] : SummaryCache) 0 "doc1" "full" (some "u2") none).1 :=
  ⟨by decide,
    c6_owner_isolation "u1" "u2" (by decide) "doc1" "full" "text" none none []
      0 0 none⟩

/-- C3: after a `setSummary` with generation (chunk count) `g1`, a
`getSummary` for the same key with generation `g2 ≠ g1` returns `None`, and
the call removes the stale entry from the persisted store: the returned
store has no binding under the key (deleting the key is a no-op), so
`getCacheStats`, which counts exactly the bindings of the store, no longer
counts it. -/
theorem c3_generation_mismatch_removes :
    ∀ (docId scope payload : String) (owner : Option String) (g1 g2 : Nat)
      (ttl : Option Nat) (c : SummaryCache) (now now2 : Nat),
      g1 ≠ g2 →
      (getSummary (setSummary c now docId payload scope owner ttl (some g1))
          now2 docId scope owner (some g2)).1 = none ∧
      lookupEntry
        (getSummary (setSummary c now docId payload scope owner ttl (some g1))
            now2 docId scope owner (some g2)).2
        (generateCacheKey docId scope owner) = none ∧
      deleteEntry
        (getSummary (setSummary c now docId payload scope owner ttl (some g1))
            now2 docId scope owner (some g2)).2
        (generateCacheKey docId scope owner) =
        (getSummary (setSummary c now docId payload scope owner ttl (some g1))
            now2 docId scope owner (some g2)).2 ∧
      (getCacheStats
          (getSummary (setSummary c now docId payload scope owner ttl (some g1))
              now2 docId scope owner (some g2)).2 now2 owner).totalEntries =
        (getSummary (setSummary c now docId payload scope owner ttl (some g1))
            now2 docId scope owner (some g2)).2.length := by
  intro docId scope payload owner g1 g2 ttl c now now2 hne
  have hm := getSummary_set_mismatch c now now2 docId scope payload owner ttl
    g1 g2 hne
  rw [hm]
  have hRkeys : ∀ p ∈ (deleteEntry c (generateCacheKey docId scope owner)).filter
      (fun p => !(isExpired now2 p.2)),
      (p.1 == generateCacheKey docId scope owner) = false :=
    filter_keys_ne _ _ _ (deleteEntry_keys_ne c _)
  refine ⟨rfl, lookupEntry_eq_none_of_keys_ne _ _ hRkeys,
    deleteEntry_eq_self_of_keys_ne _ _ hRkeys, ?_⟩
  simp [getCacheStats]

/-- Witness for `c3_generation_mismatch_removes`: the spec scenario with
generations 5 and 6. -/
theorem c3_generation_mismatch_removes_witness :
    (5 : Nat) ≠ 6 ∧
    (getSummary (setSummary [] 0 "doc42" "Executive summary text" "full"
        (some "u1") none (some 5)) 0 "doc42" "full" (some "u1") (some 6)).1 =
      none ∧
    lookupEntry
      (getSummary (setSummary [] 0 "doc42" "Executive summary text" "full"
          (some "u1") none (some 5)) 0 "doc42" "full" (some "u1") (some 6)).2
      (generateCacheKey "doc42" "full" (some "u1")) = none :=
  ⟨by decide,
    (c3_generation_mismatch_removes "doc42" "full" "Executive summary text"
      (some "u1") 5 6 none [] 0 0 (by decide)).1,
    (c3_generation_mismatch_removes "doc42" "full" "Executive summary text"
      (some "u1") 5 6 none [] 0 0 (by decide)).2.1⟩

/-- C5 counterexample: the hit test in `useSummarize` is JS string
truthiness (`if (cachedSummary)`), so a valid cached entry whose payload is
the empty string is not served from the cache.  With an empty cache and a
backend summary of `""`, the first call generates and stores the entry; at
the second call the cache does hold a valid entry at the current generation
(`getSummary` returns it), yet the call invokes the generator again and
reports `fromCache = false` instead of returning the payload from cache. -/
theorem c5_empty_payload_counterexample :
    (useSummarizeRun [] 0 (some "u1") "doc9" none 3 "").fromCache = false ∧
    (getSummary (useSummarizeRun [] 0 (some "u1") "doc9" none 3 "").store 0
        "doc9" "full" (some "u1") (some 3)).1 = some "" ∧
    (useSummarizeRun (useSummarizeRun [] 0 (some "u1") "doc9" none 3 "").store
        0 (some "u1") "doc9" none 3 "").fromCache = false ∧
    (useSummarizeRun (useSummarizeRun [] 0 (some "u1") "doc9" none 3 "").store
        0 (some "u1") "doc9" none 3 "").generatorCalled = true := by
  refine ⟨by decide, by decide, by decide, by decide⟩

/-- C5 (amended): `useSummarize` serves a cached payload, marked
`fromCache`, without consulting the generator, whenever the cache holds a
valid entry at the current generation whose payload is non-empty (an
empty-string payload fails the JS truthiness hit test and is regenerated);
on a miss it consults the generator, stores the result tagged with the
current generation, and returns it marked as generated.  Consequently,
starting from an empty cache with a non-empty generated payload, the first
call returns it as generated and an immediate second call at the same
generation returns the same payload from the cache without consulting the
generator. -/
theorem c5_cache_or_generate :
    ∀ (store : SummaryCache) (now : Nat) (owner : Option String)
      (docId : String) (dataScope : Option String) (ccnt : Nat) (gen : String),
      (∀ s : String,
        (getSummary store now docId (jsOrStr dataScope "full") owner
            (some ccnt)).1 = some s →
        s ≠ "" →
        useSummarizeRun store now owner docId dataScope ccnt gen =
          { summary := s, fromCache := true, chunkCount := ccnt,
            generatorCalled := false,
            store := (getSummary store now docId (jsOrStr dataScope "full")
              owner (some ccnt)).2 }) ∧
      ((getSummary store now docId (jsOrStr dataScope "full") owner
          (some ccnt)).1 = none →
        useSummarizeRun store now owner docId dataScope ccnt gen =
          { summary := gen, fromCache := false, chunkCount := ccnt,
            generatorCalled := true,
            store := setSummary
              (getSummary store now docId (jsOrStr dataScope "full") owner
                (some ccnt)).2
              now docId gen (jsOrStr dataScope "full") owner none
              (some ccnt) }) ∧
      (gen ≠ "" → ∀ gen2 : String,
        (useSummarizeRun [] now owner docId dataScope ccnt gen).fromCache =
            false ∧
          (useSummarizeRun [] now owner docId dataScope ccnt gen).summary =
            gen ∧
          (useSummarizeRun [] now owner docId dataScope ccnt
              gen).generatorCalled = true ∧
          (useSummarizeRun
              (useSummarizeRun [] now owner docId dataScope ccnt gen).store
              now owner docId dataScope ccnt gen2).fromCache = true ∧
          (useSummarizeRun
              (useSummarizeRun [] now owner docId dataScope ccnt gen).store
              now owner docId dataScope ccnt gen2).summary = gen ∧
          (useSummarizeRun
              (useSummarizeRun [] now owner docId dataScope ccnt gen).store
              now owner docId dataScope ccnt gen2).generatorCalled = false) := by
  intro store now owner docId dataScope ccnt gen
  refine ⟨?_, ?_, ?_⟩
  · intro s hget hs
    have hbeq : (s == "") = false := beq_eq_false_iff_ne.mpr hs
    simp only [useSummarizeRun]
    rw [hget]
    simp [hbeq]
  · intro hget
    simp only [useSummarizeRun]
    rw [hget]
  · intro hgen gen2
    have hbeq : (gen == "") = false := beq_eq_false_iff_ne.mpr hgen
    have hst : (useSummarizeRun [] now owner docId dataScope ccnt gen).store =
        setSummary [] now docId gen (jsOrStr dataScope "full") owner none
          (some ccnt) := rfl
    have hfresh : ¬ (now + jsOrNat none DEFAULT_TTL < now) := by
      simp only [jsOrNat]
      omega
    have h2 := getSummary_set_match [] now now docId (jsOrStr dataScope "full")
      gen owner none ccnt hfresh
    refine ⟨rfl, rfl, rfl, ?_, ?_, ?_⟩ <;>
      (rw [hst]; simp only [useSummarizeRun]; rw [h2]; simp [hbeq])

/-- Witness for `c5_cache_or_generate`: the spec scenario with payload "S",
owner u1, generation 3; the second call's generator result "T" is not used. -/
theorem c5_cache_or_generate_witness :
    "S" ≠ "" ∧
    (useSummarizeRun [] 0 (some "u1") "doc9" none 3 "S").fromCache = false ∧
    (useSummarizeRun [] 0 (some "u1") "doc9" none 3 "S").summary = "S" ∧
    (useSummarizeRun (useSummarizeRun [] 0 (some "u1") "doc9" none 3 "S").store
        0 (some "u1") "doc9" none 3 "T").fromCache = true ∧
    (useSummarizeRun (useSummarizeRun [] 0 (some "u1") "doc9" none 3 "S").store
        0 (some "u1") "doc9" none 3 "T").summary = "S" ∧
    (useSummarizeRun (useSummarizeRun [] 0 (some "u1") "doc9" none 3 "S").store
        0 (some "u1") "doc9" none 3 "T").generatorCalled = false :=
  ⟨by decide,
    ((c5_cache_or_generate [] 0 (some "u1") "doc9" none 3 "S").2.2
      (by decide) "T").1,
    ((c5_cache_or_generate [] 0 (some "u1") "doc9" none 3 "S").2.2
      (by decide) "T").2.1,
    ((c5_cache_or_generate [] 0 (some "u1") "doc9" none 3 "S").2.2
      (by decide) "T").2.2.2.1,
    ((c5_cache_or_generate [] 0 (some "u1") "doc9" none 3 "S").2.2
      (by decide) "T").2.2.2.2.1,
    ((c5_cache_or_generate [] 0 (some "u1") "doc9" none 3 "S").2.2
      (by decide) "T").2.2.2.2.2⟩

end EBookFE
